import Mathlib

/-!
Shallow embedding of the core of `storycraft/winit-runtime` (crate `wm`),
an async runtime layered over a windowing event loop.

Embedded modules:
* `src/event.rs` — `EventSource`, `EventFnFuture`, `ListenerItem`,
  `EventSource::once`.
* `src/timer.rs` — `ExecutorTimer` (`update_next`, `deadline`, `delay`).
* `src/executor/handle.rs`, `src/executor/mod.rs` — `ExecutorHandle`
  (`wait`, `wait_deadline`, `spawn_local`, `spawn_unchecked`),
  the write-once handle slot read by `executor_handle()`.
* `src/lib.rs` — the static event-source accessors.

Modelling conventions:
* Rust closures of type `FnMut(&mut T::Of<'_>) -> Option<()>` are modelled
  as pure state-passing functions `S → E → S × E × Option Unit`, where `S`
  is the closure's captured state and `E` the payload type; the returned `E`
  is the (possibly mutated) payload, threaded through the listeners of one
  `emit` exactly as the `&mut` borrow is in the source.
* `std::task::Waker` is modelled by a numeric id; `Waker::will_wake` is
  equality of ids (`willWake`).
* The intrusive `pin_list` node identity is a ghost field `id : Nat` used
  only to locate a node and to record invocation order, mirroring the
  pointer identity of the pinned node in the source.
* A Rust panic is modelled as `Except.error` carrying the panic message.
* `instant::now()` is passed explicitly as a `now : Nat` argument.
* The external crate `futures_intrusive`'s `TimerService` (an interface
  collaborator, not code of this repository) is modelled by its documented
  contract: a multiset of registered deadlines, `check_expirations` wakes
  and removes every entry with deadline ≤ now, `next_expiration` is the
  minimum of the remaining ones.
-/

/-- `Waker::will_wake`, with wakers as ids: two waker handles wake the same
task exactly when their ids agree. -/
def willWake (a b : Nat) : Bool := a == b

/-- `ListenerItem<T>` of `src/event.rs`: the protected value stored in the
intrusive `pin_list` node of one listener. `closure` and `st` together model
the `closure_ptr` to the `FnMut` closure living in the awaiting future's
frame. `id` is the ghost node identity. -/
structure ListenerItem (S E : Type) where
  id : Nat
  done : Bool
  waker : Option Nat
  st : S
  closure : S → E → S × E × Option Unit

/-- `ListenerItem::poll` (src/event.rs:193-199):
`if self.closure_ptr.as_mut()(event).is_some() && !self.done { self.done = true; }
 self.done` — the closure is invoked first, unconditionally; only then is the
`done` flag consulted and possibly set. Returns the updated item, the mutated
event and the returned `self.done`. -/
def ListenerItem.poll (item : ListenerItem S E) (ev : E) : ListenerItem S E × E × Bool :=
  let out := item.closure item.st ev
  let item2 : ListenerItem S E :=
    if out.2.2.isSome && !item.done then
      { item with st := out.1, done := true }
    else
      { item with st := out.1 }
  (item2, out.2.1, item2.done)

/-- `ListenerItem::update_waker` (src/event.rs:181-189). In the source the
match arm `Some(ref waker) if waker.will_wake(waker) => return` binds the
STORED waker to the name `waker`, shadowing the parameter, so the guard
compares the stored waker with itself; the new waker is stored only when the
slot is empty. -/
def ListenerItem.update_waker (item : ListenerItem S E) (w : Nat) : ListenerItem S E :=
  match item.waker with
  | some stored =>
    if willWake stored stored then item
    else { item with waker := some w }
  | none => { item with waker := some w }

/-- `EventSource<T>` (src/event.rs:23-25): the lock-protected intrusive list
of listeners, front (head of the Lean list) to back, in insertion order. -/
structure EventSource (S E : Type) where
  listeners : List (ListenerItem S E)

/-- Result of one `EventSource::emit`: the updated source, the payload after
all listener mutations, the ghost ids of the nodes whose closure was invoked
(in invocation order), and the ids of the wakers woken (in order). -/
structure EmitResult (S E : Type) where
  source : EventSource S E
  event : E
  trace : List Nat
  woken : List Nat

/-- The wake block of `EventSource::emit` (src/event.rs:40-44): when
`node.poll` returned `true`, `node.waker.take()` empties the waker slot and
the taken waker is woken; otherwise the node is untouched. Returns the node
and the list of woken waker ids. -/
def wakeStep (item : ListenerItem S E) (fired : Bool) : ListenerItem S E × List Nat :=
  if fired then
    match item.waker with
    | some w => ({ item with waker := none }, [w])
    | none => (item, [])
  else (item, [])

/-- The cursor walk of `EventSource::emit` (src/event.rs:37-47): for each
protected node, call `node.poll(&mut event)`; when it returns `true`, take
the stored waker (if any) and wake it; then `cursor.move_next()`
unconditionally. -/
def emitWalk : List (ListenerItem S E) → E →
    List (ListenerItem S E) × E × List Nat × List Nat
  | [], ev => ([], ev, [], [])
  | item :: rest, ev =>
    let p := item.poll ev
    let step := wakeStep p.1 p.2.2
    let tail := emitWalk rest p.2.1
    (step.1 :: tail.1, tail.2.1, item.id :: tail.2.2.1, step.2 ++ tail.2.2.2)

/-- `EventSource::emit` (src/event.rs:34-48). -/
def EventSource.emit (src : EventSource S E) (ev : E) : EmitResult S E :=
  let w := emitWalk src.listeners ev
  ⟨⟨w.1⟩, w.2.1, w.2.2.1, w.2.2.2⟩

/-- `EventFnFuture<'a, F, T>` (src/event.rs:105-114): the future returned by
`EventSource::on`. `linked` models whether its `pin_list` node is
initialized (has been pushed into the source's list); `st`/`closure` are the
listener closure owned by the future's frame. -/
structure EventFnFuture (S E : Type) where
  id : Nat
  linked : Bool
  st : S
  closure : S → E → S × E × Option Unit

/-- Locate a node by ghost identity (the pointer dereference of the
initialized `pin_list` node). -/
def findNode (l : List (ListenerItem S E)) (i : Nat) : Option (ListenerItem S E) :=
  l.find? (fun n => n.id == i)

/-- Update the node with ghost identity `i` in place. -/
def updateNode (l : List (ListenerItem S E)) (i : Nat)
    (f : ListenerItem S E → ListenerItem S E) : List (ListenerItem S E) :=
  l.map (fun n => if n.id == i then f n else n)

/-- `<EventFnFuture as Future>::poll` (src/event.rs:121-142): under the
source's lock, push the node at the back of the list if it is not yet
initialized; then, if the node's `done` flag is set, return `Ready` (the
third component `true`); otherwise call `update_waker` with the context's
waker and return `Pending` (`false`). -/
def EventFnFuture.poll (src : EventSource S E) (fut : EventFnFuture S E) (wk : Nat) :
    EventSource S E × EventFnFuture S E × Bool :=
  if fut.linked then
    match findNode src.listeners fut.id with
    | none => (src, fut, false)
    | some node =>
      if node.done then (src, fut, true)
      else (⟨updateNode src.listeners fut.id (fun n => n.update_waker wk)⟩, fut, false)
  else
    let item : ListenerItem S E :=
      { id := fut.id, done := false, waker := none, st := fut.st, closure := fut.closure }
    (⟨src.listeners ++ [item.update_waker wk]⟩, { fut with linked := true }, false)

/-- `<EventFnFuture as PinnedDrop>::drop` (src/event.rs:145-158): if the node
was never initialized, return at once; otherwise take the source's lock and
`reset` (unlink) the node before the future's storage is released. -/
def EventFnFuture.drop (src : EventSource S E) (fut : EventFnFuture S E) :
    EventSource S E :=
  if fut.linked then ⟨src.listeners.filter (fun n => n.id != fut.id)⟩ else src

/-!
## `EventSource::once` (src/event.rs:62-80)

```rust
let mut res = None;
self.on(|event| {
    if res.is_some() { return None; }
    listener(event).map(|output| { res = Some(output); })
}).await;
res.unwrap()
```

The wrapping closure's captured state is the pair of the user listener's own
captured state `P` and the slot `res : Option R`. The ghost counters `calls`
and `someCalls` record how often the user listener was invoked and how often
it returned `Some`; no branch reads them.
-/

/-- The captured state of the closure `once` passes to `on`, with ghost
invocation counters for the user listener `pred`. -/
structure OnceState (P R : Type) where
  p : P
  res : Option R
  calls : Nat
  someCalls : Nat

/-- Initial `once` state: `let mut res = None;`. -/
def OnceState.init (p : P) : OnceState P R :=
  { p := p, res := none, calls := 0, someCalls := 0 }

/-- One invocation of the closure `once` passes to `on`, at one emit whose
payload is `ev` (a fresh payload per emit; its mutation by `pred` is local to
that emit since the listener is the only one under consideration):
early-return `None` when `res` is already `Some`; otherwise run the user
listener and store its `Some` output into `res`. -/
def onceStep (pred : P → E → P × E × Option R) (st : OnceState P R) (ev : E) :
    OnceState P R :=
  if st.res.isSome then st
  else
    let out := pred st.p ev
    match out.2.2 with
    | some r =>
      { p := out.1, res := some r, calls := st.calls + 1, someCalls := st.someCalls + 1 }
    | none =>
      { p := out.1, res := st.res, calls := st.calls + 1, someCalls := st.someCalls }

/-- The `once` listener observed across a sequence of emits (one payload per
emit), as the emits of `EventSource::emit` invoke its wrapping closure. -/
def runOnce (pred : P → E → P × E × Option R) (st : OnceState P R) (evs : List E) :
    OnceState P R :=
  evs.foldl (onceStep pred) st

/-!
## `src/timer.rs` — `ExecutorTimer`
-/

/-- `UpdateState` (src/timer.rs:83-88). `waitTimeout` carries the `NonZeroU64`
`next - now` (strictly positive there, since `now < next` in that branch). -/
inductive UpdateState
  | none
  | triggered
  | waitTimeout (ms : Nat)
deriving DecidableEq, Repr

/-- `futures_intrusive::timer::TimerService::check_expirations`, by its
contract: wake and remove every registered entry whose deadline is ≤ now. -/
def serviceCheckExpirations (service : List Nat) (now : Nat) : List Nat :=
  service.filter (fun d => now < d)

/-- `futures_intrusive::timer::Timer::next_expiration`, by its contract: the
earliest registered deadline, if any. -/
def serviceNextExpiration (service : List Nat) : Option Nat :=
  service.min?

/-- The future returned by `TimerService::deadline`. -/
structure TimerFut where
  deadline : Nat
deriving DecidableEq, Repr

/-- `ExecutorTimer` (src/timer.rs:20-23): the external `TimerService`'s
registered deadlines plus the `next_expiration: AtomicU64` cache, whose value
`0` is the "no pending deadline" sentinel. -/
structure ExecutorTimer where
  service : List Nat
  next_expiration : Nat

/-- `ExecutorTimer::update_next` (src/timer.rs:41-60): when the cached next
expiration is the sentinel `0`, return `None` at once (no expiration check, no
wait timeout); when it is due (`next <= now`), check expirations and re-cache
the service's next expiration (`unwrap_or(0)`), returning `Triggered`;
otherwise return `WaitTimeout(next - now)`. -/
def ExecutorTimer.update_next (t : ExecutorTimer) (now : Nat) :
    ExecutorTimer × UpdateState :=
  if t.next_expiration = 0 then (t, UpdateState.none)
  else if t.next_expiration ≤ now then
    let svc := serviceCheckExpirations t.service now
    ({ service := svc, next_expiration := (serviceNextExpiration svc).getD 0 },
      UpdateState.triggered)
  else (t, UpdateState.waitTimeout (t.next_expiration - now))

/-- `ExecutorTimer::deadline` (src/timer.rs:66-80): register the deadline with
the service (obtaining the timer future), then `fetch_update` the cached next
expiration: store `timestamp` when the cache is `0` or larger than
`timestamp`, else leave it. -/
def ExecutorTimer.deadline (t : ExecutorTimer) (timestamp : Nat) :
    ExecutorTimer × TimerFut :=
  let t2 : ExecutorTimer := { t with service := t.service ++ [timestamp] }
  let t3 : ExecutorTimer :=
    if t2.next_expiration = 0 ∨ timestamp < t2.next_expiration then
      { t2 with next_expiration := timestamp }
    else t2
  (t3, ⟨timestamp⟩)

/-- `ExecutorTimer::delay` (src/timer.rs:62-64):
`self.deadline(instant::now() as u64 + delay.as_millis() as u64)`. -/
def ExecutorTimer.delay (t : ExecutorTimer) (now : Nat) (delay : Nat) :
    ExecutorTimer × TimerFut :=
  t.deadline (now + delay)

/-!
## `src/executor/handle.rs` and `src/executor/mod.rs` — `ExecutorHandle`
-/

/-- The user events the runtime injects through the host proxy. The union of
the two drafts' enums: `ExecutorEvent` of `src/executor/event.rs`
(`PollTask(Runnable)`, `TimerAdded`, `Exit(i32)`) and of
`src/executor/mod.rs:40-45` (`Wake`, `Exit(i32)`); `Runnable` is modelled by
a task id. -/
inductive ExecutorEvent
  | pollTask (tid : Nat)
  | timerAdded
  | wake
  | exit (code : Int)
deriving DecidableEq, Repr

/-- `ExecutorHandle` (src/executor/handle.rs:22-27): the host thread's id
snapshot, the timer service, and the proxy (modelled by the lists of events
the operations send through it). `nextTaskId` is the ghost supply of task
identities for `async_task::spawn_unchecked`. -/
structure ExecutorHandle where
  thread_id : Nat
  timer : ExecutorTimer
  nextTaskId : Nat

/-- `ExecutorHandle::wait` (src/executor/handle.rs:46-52, and
`src/executor/mod.rs:163-172`): create the future via the timer service, then
send one `Wake` user-event through the proxy. Returns the updated handle, the
timer future and the proxy messages sent. -/
def ExecutorHandle.wait (h : ExecutorHandle) (now : Nat) (delay : Nat) :
    ExecutorHandle × TimerFut × List ExecutorEvent :=
  ({ h with timer := (h.timer.delay now delay).1 },
    (h.timer.delay now delay).2, [ExecutorEvent.wake])

/-- `ExecutorHandle::wait_deadline` (src/executor/handle.rs:55-61, and
`deadline` of `src/executor/mod.rs:174-183`). -/
def ExecutorHandle.wait_deadline (h : ExecutorHandle) (timestamp : Nat) :
    ExecutorHandle × TimerFut × List ExecutorEvent :=
  ({ h with timer := (h.timer.deadline timestamp).1 },
    (h.timer.deadline timestamp).2, [ExecutorEvent.wake])

/-- `ExecutorHandle::spawn_unchecked` (src/executor/handle.rs:98-106):
create the task pair, then `runnable.schedule()`, whose schedule callback
sends `PollTask(runnable)` through the proxy
(src/executor/handle.rs:110-119). Returns the updated handle, the task
handle (its id) and the proxy messages sent. -/
def ExecutorHandle.spawn_unchecked (h : ExecutorHandle) :
    ExecutorHandle × Nat × List ExecutorEvent :=
  ({ h with nextTaskId := h.nextTaskId + 1 }, h.nextTaskId,
    [ExecutorEvent.pollTask h.nextTaskId])

/-- `ExecutorHandle::spawn_local` (src/executor/handle.rs:79-90): when the
calling thread is not the handle's host thread, panic with
"Cannot call spawn_local outside of event loop thread" before anything is
spawned; otherwise spawn via `spawn_unchecked`. -/
def ExecutorHandle.spawn_local (h : ExecutorHandle) (current : Nat) :
    Except String (ExecutorHandle × Nat × List ExecutorEvent) :=
  if current ≠ h.thread_id then
    Except.error "Cannot call spawn_local outside of event loop thread"
  else
    Except.ok h.spawn_unchecked

/-- `executor_handle` (src/executor/mod.rs:28-32):
`HANDLE.get().expect("Executor is not started")` over the write-once
`static HANDLE: OnceLock<ExecutorHandle>`, whose state is `none` before
`run()` stored the handle and `some h` ever after. -/
def executor_handle (slot : Option ExecutorHandle) : Except String ExecutorHandle :=
  match slot with
  | Option.none => Except.error "Executor is not started"
  | some h => Except.ok h

/-- `run()`'s store into the write-once slot (src/executor/mod.rs:224-225):
`HANDLE.set(handle)` succeeds exactly when the slot is still empty. -/
def handleSlotSet (slot : Option ExecutorHandle) (h : ExecutorHandle) :
    Except String (Option ExecutorHandle) :=
  match slot with
  | Option.none => Except.ok (some h)
  | some _ => Except.error "This cannot be happen"

/-!
## `src/lib.rs` — static event-source accessors

`define_event!` (src/lib.rs:58-74) declares one accessor function per event
kind, each returning a reference to a `static SOURCE` event source. The
payload type written in each invocation is transcribed as a `RustType`.
-/

/-- The shape of a Rust payload type as written in `src/lib.rs`. -/
inductive RustType
  | unit
  | windowId
  | windowEvent
  | deviceId
  | deviceEvent
  | mutRef (t : RustType)
  | ref (t : RustType)
  | pair (a b : RustType)
deriving DecidableEq, Repr

/-- The static event-source accessors `src/lib.rs:68-74` defines, in source
order, with their payload shapes: `window: (WindowId, &mut WindowEvent)`,
`device: (DeviceId, &DeviceEvent)`, `resumed: ()`, `suspended: ()`. Each is a
`static SOURCE` singleton, so every call returns the same source. -/
def eventAccessors : List (String × RustType) :=
  [("window", RustType.pair RustType.windowId (RustType.mutRef RustType.windowEvent)),
   ("device", RustType.pair RustType.deviceId (RustType.ref RustType.deviceEvent)),
   ("resumed", RustType.unit),
   ("suspended", RustType.unit)]

/-!
## Concrete instances used by counterexamples and witnesses
-/

/-- A listener whose closure counts its own invocations in `st` and always
returns `Some(())` (the shape of the closure in `tests/event.rs`, whose
`called` counter the test asserts to reach 2). -/
def countingListener : ListenerItem Nat Unit :=
  { id := 0, done := false, waker := some 7, st := 0,
    closure := fun n ev => (n + 1, ev, some ()) }

/-- An event source holding only `countingListener`. -/
def srcCounting : EventSource Nat Unit := ⟨[countingListener]⟩

/-- A listener that already stores waker id `1` and whose closure never
matches. -/
def staleWakerItem : ListenerItem Unit Unit :=
  { id := 0, done := false, waker := some 1, st := (),
    closure := fun s ev => (s, ev, Option.none) }

/-- A user predicate for `once`: matches payload `5` with result `9`. -/
def onceTestPred : Unit → Nat → Unit × Nat × Option Nat :=
  fun u ev => (u, ev, if ev = 5 then some 9 else Option.none)

/-!
## Helper lemmas
-/

/-- `ListenerItem::poll` never changes the node's identity. -/
theorem ListenerItem.poll_id (item : ListenerItem S E) (ev : E) :
    ((item.poll ev).1).id = item.id := by
  simp only [ListenerItem.poll]
  split <;> rfl

/-- Waking (and clearing) the waker never changes the node's identity. -/
theorem wakeStep_id (item : ListenerItem S E) (b : Bool) :
    ((wakeStep item b).1).id = item.id := by
  cases b <;> rcases h : item.waker with _ | w <;> simp [wakeStep, h]

/-- The invocation trace of one emit walk is the node ids in list order. -/
theorem emitWalk_trace (l : List (ListenerItem S E)) :
    ∀ ev : E, (emitWalk l ev).2.2.1 = l.map ListenerItem.id := by
  induction l with
  | nil => intro ev; simp [emitWalk]
  | cons item rest ih => intro ev; simp [emitWalk, ih]

/-- One emit walk preserves the membership and order of the list's nodes. -/
theorem emitWalk_ids (l : List (ListenerItem S E)) :
    ∀ ev : E, ((emitWalk l ev).1).map ListenerItem.id = l.map ListenerItem.id := by
  induction l with
  | nil => intro ev; simp [emitWalk]
  | cons item rest ih =>
    intro ev
    simp [emitWalk, ih, wakeStep_id, ListenerItem.poll_id]

/-- The wrapping closure of `once` leaves everything untouched when `res` is
already populated: the user listener is not invoked. -/
theorem onceStep_frozen (pred : P → E → P × E × Option R) (st : OnceState P R)
    (ev : E) (h : st.res.isSome) : onceStep pred st ev = st := by
  simp [onceStep, h]

/-- Once `res` is populated, any further sequence of emits leaves the `once`
state untouched. -/
theorem runOnce_frozen (pred : P → E → P × E × Option R) (evs : List E) :
    ∀ st : OnceState P R, st.res.isSome → runOnce pred st evs = st := by
  induction evs with
  | nil => intro st _; rfl
  | cons ev evs ih =>
    intro st h
    show runOnce pred (onceStep pred st ev) evs = st
    rw [onceStep_frozen pred st ev h]
    exact ih st h

/-- The ghost invariant of the `once` state: the user listener has returned
`Some` exactly once when `res` is populated, never otherwise. -/
def OnceInv (st : OnceState P R) : Prop :=
  st.someCalls = if st.res.isSome then 1 else 0

/-- One step of the `once` closure preserves the ghost invariant. -/
theorem onceStep_inv (pred : P → E → P × E × Option R) (st : OnceState P R)
    (ev : E) (h : OnceInv st) : OnceInv (onceStep pred st ev) := by
  unfold OnceInv at *
  rcases hres : st.res with _ | r
  · simp [hres] at h
    rcases hout : (pred st.p ev).2.2 with _ | r2 <;>
      simp [onceStep, hres, hout, h]
  · simpa [onceStep, hres] using h

/-- Any run of emits preserves the ghost invariant. -/
theorem runOnce_inv (pred : P → E → P × E × Option R) (evs : List E) :
    ∀ st : OnceState P R, OnceInv st → OnceInv (runOnce pred st evs) := by
  induction evs with
  | nil => intro st h; exact h
  | cons ev evs ih =>
    intro st h
    exact ih _ (onceStep_inv pred st ev h)

/-!
## Claim theorems
-/

/-- Claim C1 (corrected), counterexample to the claim as stated: a listener
whose predicate returns `Some` on the first emit (so `done` is set, first
conjunct) is invoked AGAIN by the next emit — its invocation counter reaches
2 — so it is false that "no further invocation of that predicate occurs" once
`done` is set. This is the behaviour `tests/event.rs` itself asserts
(`assert_eq!(called, 2)`). -/
theorem listener_closure_runs_after_done :
    ((srcCounting.emit ()).source.listeners.map ListenerItem.done = [true])
    ∧ (((srcCounting.emit ()).source.emit ()).source.listeners.map ListenerItem.st
        = [2]) :=
  ⟨rfl, rfl⟩

/-- Claim C1 (amended): `ListenerItem::poll` invokes the stored closure on
every emit, whether or not `done` is already set — the closure's state is
always advanced and the payload always passed through it — and the `done`
flag is monotone: after the call it is the old flag OR'ed with whether the
closure returned `Some`, so it is set at the first `Some` and never unset,
and the listener's future completes at most once. -/
theorem listener_poll_after_done (item : ListenerItem S E) (ev : E) :
    ((item.poll ev).1).st = (item.closure item.st ev).1
    ∧ ((item.poll ev).2.1) = (item.closure item.st ev).2.1
    ∧ ((item.poll ev).1).done = (item.done || (item.closure item.st ev).2.2.isSome)
    ∧ ((item.poll ev).2.2) = (item.done || (item.closure item.st ev).2.2.isSome) := by
  rcases hout : item.closure item.st ev with ⟨s2, rest⟩
  rcases rest with ⟨ev2, out⟩
  cases out <;> cases hdone : item.done <;>
    simp [ListenerItem.poll, hout, hdone]

/-- Claim C2: within one `EventSource::emit`, the closures of the currently
linked listeners are invoked front-to-back in list order, one invocation per
listener (the trace has exactly the list's node ids, in list order),
regardless of what any closure returns; emit neither adds, removes nor
reorders listeners; and list order is insertion order, because the first poll
of an `on` future pushes its node at the BACK of the list. -/
theorem emit_insertion_order (src : EventSource S E) (ev : E)
    (fut : EventFnFuture S E) (wk : Nat) :
    (src.emit ev).trace = src.listeners.map ListenerItem.id
    ∧ ((src.emit ev).source).listeners.map ListenerItem.id
        = src.listeners.map ListenerItem.id
    ∧ (fut.linked = false →
        ((EventFnFuture.poll src fut wk).1).listeners.map ListenerItem.id
          = src.listeners.map ListenerItem.id ++ [fut.id]) := by
  refine ⟨emitWalk_trace src.listeners ev, emitWalk_ids src.listeners ev, ?_⟩
  intro h
  simp [EventFnFuture.poll, h, ListenerItem.update_waker]

/-- Claim C3 (code bug): `ListenerItem::update_waker` never replaces an
already-stored waker, because the pattern `Some(ref waker)` shadows the
parameter and the guard `waker.will_wake(waker)` compares the stored waker
with itself. At the failing input — stored waker id 1, poll context waker
id 2, which would not wake the same task (`willWake 1 2 = false`) — the
stored waker remains id 1 instead of being refreshed to id 2. -/
theorem update_waker_keeps_stale_waker :
    (staleWakerItem.update_waker 2).waker = some 1 ∧ willWake 1 2 = false :=
  ⟨rfl, rfl⟩

/-- Claim C4: dropping an `on`/`once` future whose node has been linked
unlinks the node under the source's lock, so afterwards the listener is no
longer in the source's list; dropping a future whose node was never linked
returns at once and changes nothing. -/
theorem drop_unlinks_listener (src : EventSource S E) (fut : EventFnFuture S E) :
    (fut.linked = true →
      fut.id ∉ ((EventFnFuture.drop src fut)).listeners.map ListenerItem.id)
    ∧ (fut.linked = false → EventFnFuture.drop src fut = src) := by
  constructor
  · intro h hmem
    simp only [EventFnFuture.drop, h, if_true] at hmem
    simp only [List.mem_map, List.mem_filter] at hmem
    rcases hmem with ⟨n, ⟨_, hne⟩, hid⟩
    exact absurd hid (by simpa using hne)
  · intro h
    simp [EventFnFuture.drop, h]

/-- Claim C5: once the `once` wrapper's slot `res` has been populated by the
user predicate's first `Some(r)` (after the emit prefix `evs1`), any further
emits `evs2` leave the whole `once` state untouched — in particular the user
predicate is not invoked again (`calls` is unchanged), the predicate has
returned `Some` exactly once (`someCalls = 1`), and the value the `once`
future completes with (`res.unwrap()`) is exactly that `r`. -/
theorem once_at_most_once (pred : P → E → P × E × Option R) (p : P) (r : R)
    (evs1 evs2 : List E)
    (h : (runOnce pred (OnceState.init p) evs1).res = some r) :
    runOnce pred (OnceState.init p) (evs1 ++ evs2)
      = runOnce pred (OnceState.init p) evs1
    ∧ (runOnce pred (OnceState.init p) (evs1 ++ evs2)).res = some r
    ∧ (runOnce pred (OnceState.init p) (evs1 ++ evs2)).calls
        = (runOnce pred (OnceState.init p) evs1).calls
    ∧ (runOnce pred (OnceState.init p) (evs1 ++ evs2)).someCalls = 1 := by
  have happ : runOnce pred (OnceState.init p) (evs1 ++ evs2)
      = runOnce pred (runOnce pred (OnceState.init p) evs1) evs2 :=
    List.foldl_append _ _ evs1 evs2
  have hsome : (runOnce pred (OnceState.init p) evs1).res.isSome := by
    rw [h]; rfl
  have hfrozen := runOnce_frozen pred evs2 _ hsome
  have hinv : OnceInv (runOnce pred (OnceState.init p) evs1) :=
    runOnce_inv pred evs1 (OnceState.init p) (by simp [OnceInv, OnceState.init])
  refine ⟨happ.trans hfrozen, ?_, ?_, ?_⟩
  · rw [happ, hfrozen, h]
  · rw [happ, hfrozen]
  · rw [happ, hfrozen]
    unfold OnceInv at hinv
    rw [hinv, if_pos hsome]

/-- Witness for C5: the concrete predicate `onceTestPred` matches payload 5
with result 9 after the emits `[1, 5]`, and the three further emits
`[5, 5, 3]` change nothing: the state is frozen, `res` stays `some 9`, the
predicate is not invoked again and it returned `Some` exactly once. -/
theorem once_at_most_once_witness :
    runOnce onceTestPred (OnceState.init ()) ([1, 5] ++ [5, 5, 3])
      = runOnce onceTestPred (OnceState.init ()) [1, 5]
    ∧ (runOnce onceTestPred (OnceState.init ()) ([1, 5] ++ [5, 5, 3])).res = some 9
    ∧ (runOnce onceTestPred (OnceState.init ()) ([1, 5] ++ [5, 5, 3])).calls
        = (runOnce onceTestPred (OnceState.init ()) [1, 5]).calls
    ∧ (runOnce onceTestPred (OnceState.init ()) ([1, 5] ++ [5, 5, 3])).someCalls = 1 :=
  once_at_most_once onceTestPred () 9 [1, 5] [5, 5, 3] rfl

/-- Claim C6: `ExecutorHandle::wait` and `ExecutorHandle::wait_deadline`
create the timer future through the timer service (the returned future and
the updated timer state are exactly those `ExecutorTimer::delay` /
`ExecutorTimer::deadline` produce) and additionally send exactly one `Wake`
user-event through the host proxy. -/
theorem wait_sends_single_wake (h : ExecutorHandle) (now d t : Nat) :
    ((h.wait now d).2.2 = [ExecutorEvent.wake]
      ∧ (h.wait now d).2.1 = (h.timer.delay now d).2
      ∧ ((h.wait now d).1).timer = (h.timer.delay now d).1)
    ∧ ((h.wait_deadline t).2.2 = [ExecutorEvent.wake]
      ∧ (h.wait_deadline t).2.1 = (h.timer.deadline t).2
      ∧ ((h.wait_deadline t).1).timer = (h.timer.deadline t).1) :=
  ⟨⟨rfl, rfl, rfl⟩, ⟨rfl, rfl, rfl⟩⟩

/-- Claim C7 (corrected), counterexample to the claim as stated: the library
defines four static event-source accessors, not five — there is no
`redraw_requested` accessor among the `define_event!` invocations of
`src/lib.rs`. -/
theorem no_redraw_requested_accessor :
    ("redraw_requested" ∉ eventAccessors.map Prod.fst)
    ∧ eventAccessors.length = 4 := by
  constructor
  · decide
  · rfl

/-- Claim C7 (amended): the library exposes four static event-source
accessors — `window`, `device`, `resumed` and `suspended` — with payload
shapes `(WindowId, &mut WindowEvent)`, `(DeviceId, &DeviceEvent)`, `()` and
`()` respectively, each backed by a `static SOURCE` and hence a
process-singleton returning the same source on every call. -/
theorem event_accessor_shapes :
    eventAccessors.map Prod.fst = ["window", "device", "resumed", "suspended"]
    ∧ eventAccessors.lookup "window"
        = some (RustType.pair RustType.windowId (RustType.mutRef RustType.windowEvent))
    ∧ eventAccessors.lookup "device"
        = some (RustType.pair RustType.deviceId (RustType.ref RustType.deviceEvent))
    ∧ eventAccessors.lookup "resumed" = some RustType.unit
    ∧ eventAccessors.lookup "suspended" = some RustType.unit := by
  refine ⟨rfl, ?_, ?_, ?_, ?_⟩ <;> rfl

/-- Claim C8: `ExecutorHandle::spawn_local` called on a thread other than
the host (event-loop) thread panics — with the message of
src/executor/handle.rs:85 — before anything is spawned; called on the host
thread it spawns the task via `spawn_unchecked` exactly as `spawn` would. -/
theorem spawn_local_thread_check (h : ExecutorHandle) (cur : Nat) :
    (cur ≠ h.thread_id →
      h.spawn_local cur
        = Except.error "Cannot call spawn_local outside of event loop thread")
    ∧ (cur = h.thread_id → h.spawn_local cur = Except.ok h.spawn_unchecked) := by
  constructor
  · intro hne; simp [ExecutorHandle.spawn_local, hne]
  · intro heq; simp [ExecutorHandle.spawn_local, heq]

/-- Claim C9: reading the write-once handle slot before `run()` stored the
handle fails loudly with the descriptive message "Executor is not started"
rather than producing a handle; after `run()` stored `h`, every read returns
that same `h` (the slot is never overwritten: a second store fails). -/
theorem handle_slot_read (h : ExecutorHandle) :
    executor_handle Option.none = Except.error "Executor is not started"
    ∧ executor_handle (some h) = Except.ok h
    ∧ handleSlotSet Option.none h = Except.ok (some h)
    ∧ ∀ h0 : ExecutorHandle, handleSlotSet (some h0) h
        = Except.error "This cannot be happen" :=
  ⟨rfl, rfl, rfl, fun _ => rfl⟩

/-- Claim C10: the cached next-expiration value `0` is the "no pending
deadline" sentinel of `ExecutorTimer`: when it is `0`, `update_next` returns
`None` at once — neither checking expirations nor producing a wait-timeout —
and registering a deadline of exactly `0` via `deadline(0)` always sets the
cache to `0` (the `fetch_update` condition `next == 0 || next > 0` holds for
every `next`), after which `update_next` likewise returns `None`: a deadline
of exactly `0` is indistinguishable from having no timer at the host-wake
interface. -/
theorem zero_deadline_sentinel (t : ExecutorTimer) (now : Nat) :
    (t.next_expiration = 0 → t.update_next now = (t, UpdateState.none))
    ∧ ((t.deadline 0).1.next_expiration = 0)
    ∧ ((t.deadline 0).1.update_next now = ((t.deadline 0).1, UpdateState.none)) := by
  have hzero : ∀ t2 : ExecutorTimer, t2.next_expiration = 0 →
      t2.update_next now = (t2, UpdateState.none) := by
    intro t2 h2
    simp [ExecutorTimer.update_next, h2]
  have hdl : (t.deadline 0).1.next_expiration = 0 := by
    rcases Nat.eq_zero_or_pos t.next_expiration with h | h <;>
      simp [ExecutorTimer.deadline, h]
  exact ⟨hzero t, hdl, hzero _ hdl⟩
